import Mathlib

/-!
Verification of the attendance-app client against its specification.

The definitions below are a shallow embedding of the TypeScript source:

* the face-liveness capture flow of src/screens/FaceLivenessScreen.tsx
  (the automatic variant) as a state machine `step` over `FlowState`;
* the manual variant embedded at the end of src/screens/ClassesScreen.tsx
  (`fetchChallenges`, `startChallenge`, `captureChallenge`,
  `submitAttendance`, `handleRetry`) as functions over `MState`;
* `getProjection` and the donut chart clamp from the class-details screen;
* `logout` from src/store/useAuthStore.ts;
* `fetchEnrolledClasses` / `fetchAvailableClasses` from
  src/store/useClassStore.ts.

Asynchronous environment outcomes (camera, geolocation, network) are passed
to each operation as explicit `Except`/`Bool` arguments; JavaScript numbers
are modelled as `ℚ` (exact on the dyadic inputs appearing here), a possibly
NaN number as `Option ℚ`, and a JS falsy-number check as an explicit test
against `0`/`none`.
-/

namespace AttendanceApp

/-- `LivenessChallenge` from src/types (`type` + `instruction`). -/
structure Challenge where
  type : String
  instruction : String
  deriving DecidableEq, Repr

/-- `CapturedChallenge` from FaceLivenessScreen.tsx / ClassesScreen.tsx. -/
structure CapturedChallenge where
  challengeType : String
  image : String
  deriving DecidableEq, Repr

/-- Response of `attendance.getLivenessChallenges()`. -/
structure FetchResp where
  success : Bool
  challenges : List Challenge
  message : String
  deriving DecidableEq, Repr

/-- Response of `attendance.submitWithFaceVerification(...)`. -/
structure SubmitResp where
  success : Bool
  message : String
  deriving DecidableEq, Repr

/-- Latitude/longitude pair captured at submission time. -/
structure Coords where
  latitude : ℚ
  longitude : ℚ
  deriving DecidableEq, Repr

/-! ## Automatic variant: FaceLivenessScreen.tsx -/

/-- `ScreenState` of FaceLivenessScreen.tsx (lines 29-36). -/
inductive Screen where
  | initializing
  | ready
  | countdown
  | capturing
  | submitting
  | success
  | error
  deriving DecidableEq, Repr

/-- The component-local state of FaceLivenessScreen.tsx that the capture
flow reads and writes (`screenState`, `challenges`, `currentIndex`,
`capturedData`, `errorDetails`). -/
structure FlowState where
  screen : Screen
  challenges : List Challenge
  currentIndex : Nat
  captured : List CapturedChallenge
  errorDetails : String
  deriving DecidableEq, Repr

/-- Events driving the flow; each carries the outcome of the awaited
environment calls of the corresponding handler. -/
inductive Ev where
  /-- the `init` effect: camera permission, location permission, and the
  result of `attendance.getLivenessChallenges()` -/
  | init (camGranted locGranted : Bool) (fetch : Except String FetchResp)
  /-- the user taps the Start Verification button (ready state) -/
  | start
  /-- the countdown loop of `runChallengeSequence` reaches zero -/
  | countdownDone
  /-- `captureAndProcess`: camera readiness and the merged outcome of
  `takePictureAsync` + `ImageManipulator.manipulateAsync` (the optimized
  base64), every rejection landing in the same catch -/
  | capture (cameraReady : Bool) (res : Except String String)
  /-- `handleSubmit`: geolocation outcome and submission outcome -/
  | submit (loc : Except String Coords) (resp : Except String SubmitResp)
  deriving Repr

/-- `init` in FaceLivenessScreen.tsx lines 98-130: both permissions are
required; the challenge fetch succeeds only when the response reports
success and carries at least one challenge, otherwise
`throw new Error('No verification challenges received.')` is caught and
surfaced. -/
def initStep (camGranted locGranted : Bool) (fetch : Except String FetchResp)
    (s : FlowState) : FlowState :=
  if !(camGranted && locGranted) then
    { s with screen := .error,
             errorDetails := "Camera and Location permissions are required." }
  else
    match fetch with
    | .error m => { s with screen := .error, errorDetails := m }
    | .ok res =>
        if res.success && decide (res.challenges.length > 0) then
          { s with challenges := res.challenges, screen := .ready }
        else
          { s with screen := .error,
                   errorDetails := "No verification challenges received." }

/-- `captureAndProcess` in FaceLivenessScreen.tsx lines 159-214, with the
500 ms `setTimeout` advancing to the next challenge folded into the same
step (it mutates no other state).  An out-of-range `challenges[currentIndex]`
is the JS `TypeError` thrown inside the try block, landing in the catch. -/
def captureStep (cameraReady : Bool) (res : Except String String)
    (s : FlowState) : FlowState :=
  if !cameraReady then
    { s with screen := .error,
             errorDetails := "Camera not ready. Please try again." }
  else
    match res with
    | .error _ =>
        { s with screen := .error,
                 errorDetails := "Failed to capture. Please restart." }
    | .ok b64 =>
        match s.challenges[s.currentIndex]? with
        | none =>
            { s with screen := .error,
                     errorDetails := "Failed to capture. Please restart." }
        | some c =>
            let newRecord : CapturedChallenge :=
              { challengeType := c.type, image := "data:image/jpeg;base64," ++ b64 }
            let newData := s.captured ++ [newRecord]
            if s.currentIndex < s.challenges.length - 1 then
              { s with captured := newData,
                       currentIndex := s.currentIndex + 1,
                       screen := .countdown }
            else
              { s with captured := newData, screen := .submitting }

/-- `handleSubmit` in FaceLivenessScreen.tsx lines 216-253: a geolocation
or network rejection, or `success === false`, lands in the catch with
`e.message || 'Server error during verification'`; a `success === false`
response throws `new Error(res.message || 'Verification Failed')` first. -/
def submitStep (loc : Except String Coords) (resp : Except String SubmitResp)
    (s : FlowState) : FlowState :=
  match loc with
  | .error m =>
      { s with screen := .error,
               errorDetails := if m = "" then "Server error during verification" else m }
  | .ok _ =>
      match resp with
      | .error m =>
          { s with screen := .error,
                   errorDetails := if m = "" then "Server error during verification" else m }
      | .ok res =>
          if res.success then
            { s with screen := .success }
          else
            { s with screen := .error,
                     errorDetails :=
                       if res.message = "" then "Verification Failed" else res.message }

/-- One step of the automatic capture flow: each event applies only in the
screen state whose handler it models (the `init` effect is guarded by
`screenState === 'initializing'`, the Start button is rendered only in
`ready`, `runChallengeSequence` runs only on entering `countdown`, and so
on); elsewhere it leaves the state unchanged. -/
def step (s : FlowState) (e : Ev) : FlowState :=
  match e with
  | .init cam loc fetch =>
      if s.screen = .initializing then initStep cam loc fetch s else s
  | .start =>
      if s.screen = .ready then { s with screen := .countdown } else s
  | .countdownDone =>
      if s.screen = .countdown then { s with screen := .capturing } else s
  | .capture cameraReady res =>
      if s.screen = .capturing then captureStep cameraReady res s else s
  | .submit loc resp =>
      if s.screen = .submitting then submitStep loc resp s else s

/-- The state the component mounts with. -/
def init0 : FlowState :=
  { screen := .initializing, challenges := [], currentIndex := 0,
    captured := [], errorDetails := "" }

/-- States the automatic flow can actually be in. -/
inductive Reachable : FlowState → Prop where
  | init : Reachable init0
  | step {s : FlowState} (e : Ev) : Reachable s → Reachable (step s e)

/-- One complete successful challenge round: the countdown expires and the
capture (camera ready) succeeds with image `img`. -/
def captureCycle (img : String) (s : FlowState) : FlowState :=
  step (step s .countdownDone) (.capture true (.ok img))

/-- Running one successful round per image, in order. -/
def runFlow (imgs : List String) (s : FlowState) : FlowState :=
  imgs.foldl (fun s img => captureCycle img s) s

/-- The record `captureAndProcess` appends for challenge `c` and optimized
base64 `img`. -/
def mkCaptured (c : Challenge) (img : String) : CapturedChallenge :=
  { challengeType := c.type, image := "data:image/jpeg;base64," ++ img }

/-! ## Manual variant: liveness screen embedded in ClassesScreen.tsx -/

/-- `ScreenState` of the manual variant (ClassesScreen.tsx lines 306-315). -/
inductive MScreen where
  | loading
  | permission_denied
  | ready
  | challenge
  | capturing
  | processing
  | submitting
  | success
  | error
  deriving DecidableEq, Repr

/-- Component-local state of the manual variant. -/
structure MState where
  screenState : MScreen
  message : String
  errorMessage : Option String
  challenges : List Challenge
  currentChallengeIndex : Nat
  capturedChallenges : List CapturedChallenge
  countdown : Nat
  isCountingDown : Bool
  deriving DecidableEq, Repr

/-- `fetchChallenges` in ClassesScreen.tsx lines 400-419: ready only on a
successful response with at least one challenge; an empty list throws
`new Error('No challenges received')`, caught below with
`error.message || 'Failed to load verification. Please try again.'`. -/
def fetchChallenges (resp : Except String FetchResp) (s : MState) : MState :=
  let s := { s with message := "Loading verification challenges..." }
  match resp with
  | .ok r =>
      if r.success && decide (r.challenges.length > 0) then
        { s with challenges := r.challenges, screenState := .ready,
                 message := "Position your face in the frame" }
      else
        { s with screenState := .error,
                 errorMessage := some "No challenges received" }
  | .error m =>
      { s with screenState := .error,
               errorMessage :=
                 some (if m = "" then "Failed to load verification. Please try again." else m) }

/-- `startChallenge` in ClassesScreen.tsx lines 434-454: the re-entrancy
guard `if (isCountingDown) return;` and, when not guarded, the transition
into the challenge countdown.  The returned flag records whether a
countdown-and-capture sequence was actually started. -/
def startChallenge (s : MState) : MState × Bool :=
  if s.isCountingDown then (s, false)
  else
    ({ s with screenState := .challenge, isCountingDown := true, countdown := 3 }, true)

/-- `submitAttendance` in ClassesScreen.tsx lines 529-565: sets
`submitting`, then a geolocation or network rejection, or
`success === false` (which throws
`new Error(response.message || 'Verification failed')`), lands in the
catch with `error.message || 'Failed to verify. Please try again.'`. -/
def submitAttendance (loc : Except String Coords) (resp : Except String SubmitResp)
    (s : MState) : MState :=
  let s := { s with screenState := .submitting, message := "Verifying your identity..." }
  match loc with
  | .error m =>
      { s with screenState := .error,
               errorMessage :=
                 some (if m = "" then "Failed to verify. Please try again." else m) }
  | .ok _ =>
      match resp with
      | .error m =>
          { s with screenState := .error,
                   errorMessage :=
                     some (if m = "" then "Failed to verify. Please try again." else m) }
      | .ok r =>
          if r.success then
            { s with screenState := .success,
                     message := "Attendance marked successfully!" }
          else
            { s with screenState := .error,
                     errorMessage :=
                       some (if r.message = "" then "Verification failed" else r.message) }

/-- The state resets performed by `handleRetry` (ClassesScreen.tsx lines
567-576) before it refetches. -/
def resetCaptureState (s : MState) : MState :=
  { s with screenState := .loading, challenges := [], currentChallengeIndex := 0,
           capturedChallenges := [], errorMessage := none, isCountingDown := false }

/-- `handleRetry` in ClassesScreen.tsx lines 567-576: reset everything,
re-enter `loading`, then `fetchChallenges()`. -/
def handleRetry (resp : Except String FetchResp) (s : MState) : MState :=
  fetchChallenges resp (resetCaptureState s)

/-- Actions a rendered button performs. -/
inductive UIAction where
  | goBack
  | retry
  | grantPermissions
  deriving DecidableEq, Repr

/-- The buttons rendered by FaceLivenessScreen.tsx in the `error` state
(lines 282-290): a single Close button calling `navigation.goBack()`. -/
def autoErrorButtons : List (String × UIAction) :=
  [("Close", .goBack)]

/-- The buttons rendered by the manual variant in the `error` state
(ClassesScreen.tsx lines 637-669): Try Again calling `handleRetry`, and
Cancel calling `navigation.goBack()`. -/
def manualErrorButtons : List (String × UIAction) :=
  [("Try Again", .retry), ("Cancel", .goBack)]

/-! ## Class-details screen (src/unnamed/part_001) -/

/-- Result of `getProjection` (the `status` field plus the computed count
that its message interpolates; the warning branch computes no count). -/
inductive Projection where
  | safe (buffer : ℤ)
  | warning
  | danger (needed : ℤ)
  deriving DecidableEq, Repr

/-- `getProjection` in the ProjectionCard of src/unnamed/part_001 lines
86-105, over exact rationals (`total || 1` is the JS falsy check on 0). -/
def getProjection (attended total threshold : ℚ) : Projection :=
  let currentPct := attended / (if total = 0 then 1 else total) * 100
  if currentPct ≥ threshold then
    let maxTotal := attended / (threshold / 100)
    let buffer := ⌊maxTotal - total⌋
    if buffer ≤ 0 then .warning else .safe buffer
  else
    .danger ⌈(threshold / 100 * total - attended) / (1 - threshold / 100)⌉

/-- `safePercentage` in the DonutChart of src/unnamed/part_001 line 41:
`isNaN(percentage) ? 0 : Math.max(0, Math.min(100, percentage))`, a NaN
input modelled as `none`. -/
def safePercentage (percentage : Option ℚ) : ℚ :=
  match percentage with
  | none => 0
  | some p => max 0 (min 100 p)

/-- The value FaceLivenessScreen.tsx line 381 passes to the ProgressBar:
`(currentIndex + 1) / challenges.length`, as written, with no clamping. -/
def progressDisplay (currentIndex challengesLength : Nat) : ℚ :=
  ((currentIndex : ℚ) + 1) / (challengesLength : ℚ)

/-- Modelled from the spec: the display value the specification describes,
`(currentIndex+1) / challenges.length` clamped to `[0,1]` before display. -/
def specClampedDisplay (currentIndex challengesLength : Nat) : ℚ :=
  max 0 (min 1 (progressDisplay currentIndex challengesLength))

/-! ## Session store: src/store/useAuthStore.ts -/

/-- The in-memory session slice of `useAuthStore` that `logout` touches. -/
structure AuthMem where
  isAuthenticated : Bool
  user : Option String
  token : Option String
  deriving DecidableEq, Repr

/-- `SecureStore.deleteItemAsync`, its outcome supplied by the caller. -/
def deleteItemAsync (fails : Bool) : Except String Unit :=
  if fails then .error "storage failure" else .ok ()

/-- `logout` in useAuthStore.ts lines 83-93: try deleting both keys, catch
any storage error (only logged), and in the `finally` block always
`set({ user: null, isAuthenticated: false, token: null })`.  The second
component is what the returned promise resolves with: no error escapes. -/
def logout (tokenDeleteFails userDeleteFails : Bool) (s : AuthMem) :
    AuthMem × Except String Unit :=
  let tryBlock : Except String Unit := do
    deleteItemAsync tokenDeleteFails
    deleteItemAsync userDeleteFails
  let caught : Except String Unit :=
    match tryBlock with
    | .ok _ => .ok ()
    | .error _ => .ok ()
  ({ s with user := none, isAuthenticated := false, token := none }, caught)

/-! ## Class cache store: src/store/useClassStore.ts -/

/-- `CACHE_DURATION = 5 * 60 * 1000` (useClassStore.ts line 28). -/
def CACHE_DURATION : ℤ := 5 * 60 * 1000

/-- The slice of `useClassStore` state the two fetches touch; class items
are kept abstract as their ids. -/
structure ClassStore where
  enrolledClasses : List String
  availableClasses : List String
  isLoading : Bool
  storeError : Option String
  lastUpdated : Option ℤ
  deriving DecidableEq, Repr

/-- The early-return condition of `fetchEnrolledClasses` (useClassStore.ts
line 44): `!forceRefresh && enrolledClasses.length > 0 && lastUpdated &&
(now - lastUpdated < CACHE_DURATION)`; a `lastUpdated` of `null` or `0` is
falsy in JS. -/
def servesFromCache (forceRefresh : Bool) (now : ℤ) (s : ClassStore) : Bool :=
  !forceRefresh && decide (s.enrolledClasses.length > 0) &&
    (match s.lastUpdated with
     | none => false
     | some t => !decide (t = 0) && decide (now - t < CACHE_DURATION))

/-- `fetchEnrolledClasses` in useClassStore.ts lines 39-56.  The second
component records whether the network call `classes.getEnrolled()` was
performed. -/
def fetchEnrolledClasses (forceRefresh : Bool) (now : ℤ)
    (api : Except String (List String)) (s : ClassStore) : ClassStore × Bool :=
  if servesFromCache forceRefresh now s then (s, false)
  else
    let s := { s with isLoading := true, storeError := none }
    match api with
    | .ok data =>
        ({ s with enrolledClasses := data, lastUpdated := some now,
                  isLoading := false }, true)
    | .error m =>
        ({ s with storeError := some (if m = "" then "Failed to fetch classes" else m),
                  isLoading := false }, true)

/-- `fetchAvailableClasses` in useClassStore.ts lines 58-66: its
`forceRefresh` parameter is never read and there is no cache check; the
network call `classes.getAvailable()` is always performed. -/
def fetchAvailableClasses (forceRefresh : Bool)
    (api : Except String (List String)) (s : ClassStore) : ClassStore × Bool :=
  let s := { s with isLoading := true, storeError := none }
  match api with
  | .ok data =>
      ({ s with availableClasses := data, isLoading := false }, true)
  | .error m =>
      ({ s with storeError :=
                  some (if m = "" then "Failed to fetch available classes" else m),
                isLoading := false }, true)

/-! ## C7: getProjection at attended = 30, total = 40, threshold = 75 -/

/-- C7 counterexample: at `attended = 30, total = 40, threshold = 75` the
current percentage is exactly 75, which satisfies `currentPct >= threshold`,
so `getProjection` takes the safe/warning branch and returns `warning`
(the buffer `floor(30 / 0.75 - 40)` is `0`); it does not return `danger`
with `ceil((0.75 * 40 - 30) / 0.25)` (which would be `danger 0`). -/
theorem getProjection_30_40_75_not_danger :
    getProjection 30 40 75 = Projection.warning ∧
    getProjection 30 40 75 ≠ Projection.danger ⌈((0.75 : ℚ) * 40 - 30) / 0.25⌉ := by
  have h : getProjection 30 40 75 = Projection.warning := by
    norm_num [getProjection]
  exact ⟨h, by rw [h]; simp⟩

/-- C7 amended: on `(30, 40, 75)` the code returns `warning` (the
percentage meets the threshold exactly and the miss-buffer is `0`); the
`danger` status with count `ceil((threshold/100 * total - attended) /
(1 - threshold/100))` is returned exactly on inputs whose current
percentage is strictly below the threshold. -/
theorem getProjection_threshold_edge :
    getProjection 30 40 75 = Projection.warning ∧
    ∀ attended total : ℚ, 0 < total → attended / total * 100 < 75 →
      getProjection attended total 75 =
        Projection.danger ⌈(75 / 100 * total - attended) / (1 - 75 / 100)⌉ := by
  constructor
  · norm_num [getProjection]
  · intro a t ht h
    unfold getProjection
    rw [if_neg (by positivity : ¬(t = 0))]
    rw [if_neg (by simpa using not_le.mpr h)]

/-- C7 witness: at `attended = 29, total = 40` the percentage is 72.5,
below the threshold, and the computed count is `4`. -/
theorem getProjection_threshold_edge_witness :
    getProjection 29 40 75 =
      Projection.danger ⌈((75 : ℚ) / 100 * 40 - 29) / (1 - 75 / 100)⌉ :=
  getProjection_threshold_edge.2 29 40 (by norm_num) (by norm_num)

/-! ## C8: progress display and clamping -/

/-- C8 counterexample: the value FaceLivenessScreen.tsx passes to the
ProgressBar is `(currentIndex + 1) / challenges.length` with no clamping;
at `currentIndex = 2, challenges.length = 2` it is `3/2`, not the
clamped-to-`[0,1]` value `1` the claim describes. -/
theorem progressDisplay_not_clamped :
    progressDisplay 2 2 ≠ specClampedDisplay 2 2 := by
  norm_num [progressDisplay, specClampedDisplay]

/-- C8 amended: the raw progress value agrees with the clamped value
exactly when `currentIndex < challenges.length` (so the clamp is absent
from the code but invisible in range); NaN-to-0 and clamping exist only in
the donut chart's `safePercentage`, whose range is `[0, 100]` and which
maps a NaN input to `0`. -/
theorem progressDisplay_clamp_amended :
    (∀ i n : Nat, 0 < n →
      (progressDisplay i n = specClampedDisplay i n ↔ i < n)) ∧
    safePercentage none = 0 ∧
    (∀ p : Option ℚ, 0 ≤ safePercentage p ∧ safePercentage p ≤ 100) := by
  refine ⟨?_, rfl, ?_⟩
  · intro i n hn
    have hn' : (0 : ℚ) < n := by exact_mod_cast hn
    have hx0 : (0 : ℚ) ≤ ((i : ℚ) + 1) / n := by positivity
    unfold specClampedDisplay progressDisplay
    constructor
    · intro heq
      by_contra hlt
      push_neg at hlt
      have h1 : (1 : ℚ) < ((i : ℚ) + 1) / n := by
        rw [lt_div_iff₀ hn', one_mul]
        exact_mod_cast Nat.lt_succ_of_le hlt
      rw [min_eq_left h1.le, max_eq_right (zero_le_one)] at heq
      exact absurd heq (by linarith)
    · intro hin
      have hle : ((i : ℚ) + 1) / n ≤ 1 := by
        rw [div_le_one hn']
        exact_mod_cast Nat.succ_le_of_lt hin
      rw [min_eq_right hle, max_eq_right hx0]
  · intro p
    match p with
    | none => exact ⟨le_refl 0, by norm_num [safePercentage]⟩
    | some q =>
        refine ⟨le_max_left _ _, ?_⟩
        exact max_le (by norm_num) (min_le_left _ _)

/-- C8 witness: at `currentIndex = 0, challenges.length = 1` the raw and
clamped displays agree. -/
theorem progressDisplay_clamp_amended_witness :
    progressDisplay 0 1 = specClampedDisplay 0 1 :=
  (progressDisplay_clamp_amended.1 0 1 (by norm_num)).mpr (by norm_num)

/-! ## C9: logout always clears the in-memory session -/

/-- C9: whatever the two secure-storage deletions do, `logout` ends with
`user = null`, `token = null`, `isAuthenticated = false`, and resolves
without propagating a storage error. -/
theorem logout_clears_session :
    ∀ (tokenDeleteFails userDeleteFails : Bool) (s : AuthMem),
      logout tokenDeleteFails userDeleteFails s =
        ({ isAuthenticated := false, user := none, token := none }, Except.ok ()) := by
  intro tf uf s
  cases tf <;> cases uf <;> rfl

/-! ## C10: staleness-skip policy of the class cache store -/

/-- Helper: the network flag of `fetchEnrolledClasses` is the negation of
the cache-skip condition. -/
theorem fetchEnrolledClasses_snd (force : Bool) (now : ℤ)
    (api : Except String (List String)) (s : ClassStore) :
    (fetchEnrolledClasses force now api s).2 = !servesFromCache force now s := by
  unfold fetchEnrolledClasses
  by_cases hc : servesFromCache force now s
  · simp [hc]
  · cases api <;> simp [hc]

/-- Helper: characterisation of the cache-skip condition, for states whose
timestamp is not the (JS-falsy) literal `0`. -/
theorem servesFromCache_iff (force : Bool) (now : ℤ) (s : ClassStore)
    (h : s.lastUpdated ≠ some 0) :
    (servesFromCache force now s = true ↔
      force = false ∧ s.enrolledClasses ≠ [] ∧
        ∃ t, s.lastUpdated = some t ∧ now - t < CACHE_DURATION) := by
  unfold servesFromCache
  rcases hl : s.lastUpdated with _ | t
  · simp [hl]
  · have ht : ¬(t = 0) := fun h0 => h (h0 ▸ hl)
    simp only [hl, Bool.and_eq_true, Bool.not_eq_true', decide_eq_true_eq,
      decide_eq_false_iff_not, List.length_pos, Option.some.injEq]
    constructor
    · rintro ⟨⟨hf, hne⟩, hz, hlt⟩
      exact ⟨hf, hne, t, rfl, hlt⟩
    · rintro ⟨hf, hne, t', ht', hlt⟩
      cases ht'
      exact ⟨⟨hf, hne⟩, ht, hlt⟩

/-- C10: `fetchEnrolledClasses` skips the network exactly when the refresh
is not forced, the cached list is non-empty, and the stored timestamp is
within `CACHE_DURATION` of now (for any state whose timestamp is not the
JS-falsy `0`, which the store never writes); `fetchAvailableClasses`
always performs the network fetch, whatever its `forceRefresh` argument
and the cache age. -/
theorem fetch_staleness_policy :
    (∀ (force : Bool) (now : ℤ) (api : Except String (List String)) (s : ClassStore),
      s.lastUpdated ≠ some 0 →
      ((fetchEnrolledClasses force now api s).2 = false ↔
        force = false ∧ s.enrolledClasses ≠ [] ∧
          ∃ t, s.lastUpdated = some t ∧ now - t < CACHE_DURATION)) ∧
    (∀ (force : Bool) (api : Except String (List String)) (s : ClassStore),
      (fetchAvailableClasses force api s).2 = true) := by
  constructor
  · intro force now api s h
    rw [fetchEnrolledClasses_snd, Bool.not_eq_false']
    exact servesFromCache_iff force now s h
  · intro force api s
    cases api <;> rfl

/-- C10 witness: a store with one cached class fetched 100 ms ago skips
the network when not forced. -/
theorem fetch_staleness_policy_witness :
    (fetchEnrolledClasses false 1000 (Except.ok [])
        { enrolledClasses := ["c1"], availableClasses := [], isLoading := false,
          storeError := none, lastUpdated := some 900 }).2 = false :=
  (fetch_staleness_policy.1 false 1000 (Except.ok [])
      { enrolledClasses := ["c1"], availableClasses := [], isLoading := false,
        storeError := none, lastUpdated := some 900 }
      (by simp)).mpr ⟨rfl, by simp, 900, rfl, by norm_num [CACHE_DURATION]⟩

/-! ## C3: the challenge-fetch gate into `ready` -/

/-- Helper: `init` always lands in `ready` or `error`. -/
theorem initStep_screen_cases (cam loc : Bool) (fetch : Except String FetchResp)
    (s : FlowState) :
    (initStep cam loc fetch s).screen = .ready ∨
      (initStep cam loc fetch s).screen = .error := by
  unfold initStep
  split
  · right; rfl
  · split
    · right; rfl
    · split
      · left; rfl
      · right; rfl

/-- Helper: `init` reaches `ready` exactly when both permissions are
granted and the fetch resolved with a successful, non-empty challenge
list. -/
theorem initStep_ready_iff (cam loc : Bool) (fetch : Except String FetchResp)
    (s : FlowState) :
    ((initStep cam loc fetch s).screen = .ready ↔
      cam = true ∧ loc = true ∧
        ∃ r, fetch = .ok r ∧ r.success = true ∧ 0 < r.challenges.length) := by
  unfold initStep
  split
  · rename_i h
    rw [Bool.not_eq_true'] at h
    constructor
    · intro habs; exact absurd habs (by simp)
    · rintro ⟨hc, hl, -⟩
      rw [hc, hl] at h
      simp at h
  · rename_i h
    rw [Bool.not_eq_true', Bool.not_eq_false] at h
    obtain ⟨hc, hl⟩ := Bool.and_eq_true_iff.mp h
    split
    · rename_i m
      constructor
      · intro habs; exact absurd habs (by simp)
      · rintro ⟨-, -, r, hr, -⟩
        exact Except.noConfusion hr
    · rename_i r
      split
      · rename_i hgood
        obtain ⟨hsucc, hlen⟩ := Bool.and_eq_true_iff.mp hgood
        exact iff_of_true rfl ⟨hc, hl, r, rfl, hsucc, of_decide_eq_true hlen⟩
      · rename_i hbad
        constructor
        · intro habs; exact absurd habs (by simp)
        · rintro ⟨-, -, r', hr', hsucc, hlen⟩
          injection hr' with hrr
          subst hrr
          exact absurd (Bool.and_eq_true_iff.mpr ⟨hsucc, decide_eq_true hlen⟩) hbad

/-- Helper: the manual variant's `fetchChallenges` also lands only in
`ready` or `error`. -/
theorem fetchChallenges_screen_cases (resp : Except String FetchResp) (s : MState) :
    (fetchChallenges resp s).screenState = .ready ∨
      (fetchChallenges resp s).screenState = .error := by
  unfold fetchChallenges
  split
  · split
    · left; rfl
    · right; rfl
  · right; rfl

/-- Helper: the manual variant's `fetchChallenges` reaches `ready` exactly
when the response resolved successfully with at least one challenge. -/
theorem fetchChallenges_ready_iff (resp : Except String FetchResp) (s : MState) :
    ((fetchChallenges resp s).screenState = .ready ↔
      ∃ r, resp = .ok r ∧ r.success = true ∧ 0 < r.challenges.length) := by
  unfold fetchChallenges
  split
  · rename_i r
    split
    · rename_i hgood
      obtain ⟨hsucc, hlen⟩ := Bool.and_eq_true_iff.mp hgood
      exact iff_of_true rfl ⟨r, rfl, hsucc, of_decide_eq_true hlen⟩
    · rename_i hbad
      constructor
      · intro habs; exact absurd habs (by simp)
      · rintro ⟨r', hr', hsucc, hlen⟩
        injection hr' with hrr
        subst hrr
        exact absurd (Bool.and_eq_true_iff.mpr ⟨hsucc, decide_eq_true hlen⟩) hbad
  · rename_i m
    constructor
    · intro habs; exact absurd habs (by simp)
    · rintro ⟨r, hr, -⟩
      exact Except.noConfusion hr

/-- C3: in both variants, a fetch that reports failure, rejects, or
reports success with zero challenges sends the flow to `error`, and
`ready` is entered exactly when the response reports success and carries
at least one challenge (both permissions also being required in the
automatic variant's `init`). -/
theorem challenge_fetch_gate :
    ∀ (cam loc : Bool) (fetch : Except String FetchResp)
      (cs : List Challenge) (i : Nat) (cap : List CapturedChallenge) (ed : String),
      ((step ⟨.initializing, cs, i, cap, ed⟩ (.init cam loc fetch)).screen = .ready ∨
        (step ⟨.initializing, cs, i, cap, ed⟩ (.init cam loc fetch)).screen = .error) ∧
      ((step ⟨.initializing, cs, i, cap, ed⟩ (.init cam loc fetch)).screen = .ready ↔
        cam = true ∧ loc = true ∧
          ∃ r, fetch = .ok r ∧ r.success = true ∧ 0 < r.challenges.length) ∧
      (∀ (resp : Except String FetchResp) (s : MState),
        ((fetchChallenges resp s).screenState = .ready ∨
          (fetchChallenges resp s).screenState = .error) ∧
        ((fetchChallenges resp s).screenState = .ready ↔
          ∃ r, resp = .ok r ∧ r.success = true ∧ 0 < r.challenges.length)) := by
  intro cam loc fetch cs i cap ed
  have hstep : step ⟨.initializing, cs, i, cap, ed⟩ (.init cam loc fetch) =
      initStep cam loc fetch ⟨.initializing, cs, i, cap, ed⟩ := by
    simp [step]
  rw [hstep]
  exact ⟨initStep_screen_cases cam loc fetch _, initStep_ready_iff cam loc fetch _,
    fun resp s => ⟨fetchChallenges_screen_cases resp s, fetchChallenges_ready_iff resp s⟩⟩

/-! ## C5: re-entrancy guard on the capture trigger -/

/-- C5: the manual variant's `startChallenge` is guarded by
`isCountingDown`: while a countdown-and-capture sequence is pending a
second trigger is a no-op, so two triggers in immediate succession start
exactly one sequence; in the automatic variant the Start trigger moves
`ready` to `countdown` and a second press, no longer in `ready`, changes
nothing. -/
theorem capture_reentrancy_guard :
    (∀ s : MState, s.isCountingDown = true → startChallenge s = (s, false)) ∧
    (∀ s : MState, s.isCountingDown = false →
      (startChallenge s).2 = true ∧
      startChallenge (startChallenge s).1 = ((startChallenge s).1, false)) ∧
    (∀ s : FlowState, s.screen = .ready →
      step (step s .start) .start = step s .start) := by
  refine ⟨?_, ?_, ?_⟩
  · intro s h
    simp [startChallenge, h]
  · intro s h
    exact ⟨by simp [startChallenge, h], by simp [startChallenge, h]⟩
  · intro s h
    simp [step, h]

/-- C5 witness: from an idle ready state, the first trigger starts a
sequence and an immediately repeated trigger is a no-op. -/
theorem capture_reentrancy_guard_witness :
    (startChallenge
        { screenState := .ready, message := "", errorMessage := none, challenges := [],
          currentChallengeIndex := 0, capturedChallenges := [], countdown := 3,
          isCountingDown := false }).2 = true ∧
    startChallenge
        (startChallenge
          { screenState := .ready, message := "", errorMessage := none, challenges := [],
            currentChallengeIndex := 0, capturedChallenges := [], countdown := 3,
            isCountingDown := false }).1 =
      ((startChallenge
          { screenState := .ready, message := "", errorMessage := none, challenges := [],
            currentChallengeIndex := 0, capturedChallenges := [], countdown := 3,
            isCountingDown := false }).1, false) :=
  capture_reentrancy_guard.2.1
    { screenState := .ready, message := "", errorMessage := none, challenges := [],
      currentChallengeIndex := 0, capturedChallenges := [], countdown := 3,
      isCountingDown := false } rfl

/-! ## C4: submission failure surfaces the server message, no partial resume -/

/-- C4: in both variants a submission whose call rejects with message `m`,
or whose response has `success = false` and message `m` (`m` non-empty, as
when the server says face mismatch), lands in `error` with exactly `m`
surfaced; and the manual variant's retry resets `captured` to empty and
the index to 0, so no partial capture list survives into the next
attempt. -/
theorem submission_failure_surfaced :
    ∀ m : String, m ≠ "" →
      (∀ (s : FlowState) (c : Coords), s.screen = .submitting →
        ((step s (.submit (.ok c) (.ok ⟨false, m⟩))).screen = .error ∧
         (step s (.submit (.ok c) (.ok ⟨false, m⟩))).errorDetails = m) ∧
        ((step s (.submit (.ok c) (.error m))).screen = .error ∧
         (step s (.submit (.ok c) (.error m))).errorDetails = m)) ∧
      (∀ (s : MState) (c : Coords),
        (submitAttendance (.ok c) (.ok ⟨false, m⟩) s).screenState = .error ∧
        (submitAttendance (.ok c) (.ok ⟨false, m⟩) s).errorMessage = some m ∧
        (submitAttendance (.ok c) (.error m) s).screenState = .error ∧
        (submitAttendance (.ok c) (.error m) s).errorMessage = some m) ∧
      (∀ (resp : Except String FetchResp) (s : MState),
        (handleRetry resp s).capturedChallenges = [] ∧
        (handleRetry resp s).currentChallengeIndex = 0) := by
  intro m hm
  refine ⟨?_, ?_, ?_⟩
  · intro s c h
    simp [step, h, submitStep, hm]
  · intro s c
    simp [submitAttendance, hm]
  · intro resp s
    unfold handleRetry fetchChallenges resetCaptureState
    cases resp with
    | error m' => exact ⟨rfl, rfl⟩
    | ok r =>
        by_cases hg : (r.success && decide (r.challenges.length > 0)) = true
        · simp [hg]
        · simp [hg]

/-- C4 witness: the server answer `{success: false, message: "face
mismatch"}` surfaces exactly "face mismatch". -/
theorem submission_failure_surfaced_witness :
    (submitAttendance (Except.ok ⟨0, 0⟩) (Except.ok ⟨false, "face mismatch"⟩)
        { screenState := .capturing, message := "", errorMessage := none,
          challenges := [], currentChallengeIndex := 0, capturedChallenges := [],
          countdown := 0, isCountingDown := true }).errorMessage =
      some "face mismatch" :=
  ((submission_failure_surfaced "face mismatch" (by simp)).2.1
      { screenState := .capturing, message := "", errorMessage := none,
        challenges := [], currentChallengeIndex := 0, capturedChallenges := [],
        countdown := 0, isCountingDown := true } ⟨0, 0⟩).2.1

/-! ## C6: the retry action from the error state -/

/-- C6 counterexample: the claim says the flow's error state exposes a
retry action, but the automatic variant (FaceLivenessScreen.tsx lines
282-290) renders only a Close button that navigates away — none of its
error-state buttons performs a retry. -/
theorem error_retry_counterexample :
    (autoErrorButtons.map Prod.snd).contains UIAction.retry = false := by
  decide

/-- C6 amended: only the manual variant exposes a retry (Try Again)
action from `error`; it is a button press (explicit user action) whose
handler first resets all capture state — challenges, index, captured
list, error message, countdown flag — re-entering `loading`, and then
refetches challenges; the automatic variant's error state has no retry,
only Close. -/
theorem error_retry_amended :
    ("Try Again", UIAction.retry) ∈ manualErrorButtons ∧
    (autoErrorButtons.map Prod.snd).contains UIAction.retry = false ∧
    (∀ s : MState,
      (resetCaptureState s).screenState = .loading ∧
      (resetCaptureState s).challenges = [] ∧
      (resetCaptureState s).currentChallengeIndex = 0 ∧
      (resetCaptureState s).capturedChallenges = [] ∧
      (resetCaptureState s).errorMessage = none ∧
      (resetCaptureState s).isCountingDown = false) ∧
    (∀ (resp : Except String FetchResp) (s : MState),
      handleRetry resp s = fetchChallenges resp (resetCaptureState s)) :=
  ⟨List.Mem.head _, by decide,
    fun _ => ⟨rfl, rfl, rfl, rfl, rfl, rfl⟩, fun _ _ => rfl⟩

/-! ## C1: the capture-session invariant -/

/-- The relation between `captured.length` and `currentIndex` that
actually holds in each stable screen state. -/
def StableInv (s : FlowState) : Prop :=
  match s.screen with
  | .submitting => s.captured.length = s.currentIndex + 1
  | .success => s.captured.length = s.currentIndex + 1
  | .error => s.captured.length = s.currentIndex ∨ s.captured.length = s.currentIndex + 1
  | _ => s.captured.length = s.currentIndex

/-- Helper: `StableInv` holds in every reachable state of the automatic
flow. -/
theorem reachable_stableInv : ∀ s : FlowState, Reachable s → StableInv s := by
  intro s hr
  induction hr with
  | init => simp [StableInv, init0]
  | step e hr ih =>
    rename_i s'
    cases e with
    | init cam loc fetch =>
      by_cases hs : s'.screen = .initializing
      · have hlen : s'.captured.length = s'.currentIndex := by
          simpa [StableInv, hs] using ih
        simp only [step]
        rw [if_pos hs]
        unfold initStep
        split
        · simp [StableInv, hlen]
        · split
          · simp [StableInv, hlen]
          · split
            · simp [StableInv, hlen]
            · simp [StableInv, hlen]
      · simp only [step]
        rw [if_neg hs]
        exact ih
    | start =>
      by_cases hs : s'.screen = .ready
      · have hlen : s'.captured.length = s'.currentIndex := by
          simpa [StableInv, hs] using ih
        simp only [step]
        rw [if_pos hs]
        simp [StableInv, hlen]
      · simp only [step]
        rw [if_neg hs]
        exact ih
    | countdownDone =>
      by_cases hs : s'.screen = .countdown
      · have hlen : s'.captured.length = s'.currentIndex := by
          simpa [StableInv, hs] using ih
        simp only [step]
        rw [if_pos hs]
        simp [StableInv, hlen]
      · simp only [step]
        rw [if_neg hs]
        exact ih
    | capture cameraReady res =>
      by_cases hs : s'.screen = .capturing
      · have hlen : s'.captured.length = s'.currentIndex := by
          simpa [StableInv, hs] using ih
        simp only [step]
        rw [if_pos hs]
        simp only [captureStep]
        split
        · simp [StableInv, hlen]
        · split
          · simp [StableInv, hlen]
          · split
            · simp [StableInv, hlen]
            · split
              · simp [StableInv, hlen]
              · simp [StableInv, hlen]
      · simp only [step]
        rw [if_neg hs]
        exact ih
    | submit loc resp =>
      by_cases hs : s'.screen = .submitting
      · have hlen : s'.captured.length = s'.currentIndex + 1 := by
          simpa [StableInv, hs] using ih
        simp only [step]
        rw [if_pos hs]
        unfold submitStep
        split
        · simp [StableInv, hlen]
        · split
          · simp [StableInv, hlen]
          · split
            · simp [StableInv, hlen]
            · simp [StableInv, hlen]
      · simp only [step]
        rw [if_neg hs]
        exact ih

/-- C1 counterexample: the claimed invariant `captured.length =
currentIndex` at every stable state fails on the code: running one
challenge to completion reaches the stable `submitting` state with
`captured.length = 1` but `currentIndex = 0` (the final capture appends
without incrementing the index). -/
theorem capture_session_invariant_counterexample :
    ¬ (∀ s : FlowState, Reachable s → s.captured.length = s.currentIndex) := by
  intro hclaim
  have h0 : Reachable init0 := Reachable.init
  have h1 := Reachable.step
    (Ev.init true true (Except.ok ⟨true, [⟨"smile", "Smile"⟩], "ok"⟩)) h0
  have h2 := Reachable.step Ev.start h1
  have h3 := Reachable.step Ev.countdownDone h2
  have h4 := Reachable.step (Ev.capture true (Except.ok "IMG")) h3
  exact absurd (hclaim _ h4) (by decide)

/-- C1 amended: in every reachable stable state of the automatic flow,
`captured.length = currentIndex` holds up to and including the capture of
the current challenge (initializing, ready, countdown, capturing); once
the final capture completes the flow enters `submitting` (and then
`success`) with `captured.length = currentIndex + 1`, the index never
being incremented past the last challenge; in `error` one of the two
holds, depending on where the failure occurred. -/
theorem capture_session_invariant_amended :
    ∀ s : FlowState, Reachable s →
      ((s.screen = .initializing ∨ s.screen = .ready ∨ s.screen = .countdown ∨
          s.screen = .capturing) → s.captured.length = s.currentIndex) ∧
      ((s.screen = .submitting ∨ s.screen = .success) →
          s.captured.length = s.currentIndex + 1) ∧
      (s.screen = .error →
          s.captured.length = s.currentIndex ∨
            s.captured.length = s.currentIndex + 1) := by
  intro s hr
  have hinv := reachable_stableInv s hr
  unfold StableInv at hinv
  refine ⟨?_, ?_, ?_⟩
  · rintro (h | h | h | h) <;> rw [h] at hinv <;> simpa using hinv
  · rintro (h | h) <;> rw [h] at hinv <;> simpa using hinv
  · intro h
    rw [h] at hinv
    simpa using hinv

/-- C1 witness: the amended invariant evaluated on the concrete
one-challenge run, in its `submitting` state. -/
theorem capture_session_invariant_amended_witness :
    (step (step (step (step init0
        (Ev.init true true (Except.ok ⟨true, [⟨"smile", "Smile"⟩], "ok"⟩)))
        Ev.start) Ev.countdownDone)
        (Ev.capture true (Except.ok "IMG"))).captured.length =
      (step (step (step (step init0
        (Ev.init true true (Except.ok ⟨true, [⟨"smile", "Smile"⟩], "ok"⟩)))
        Ev.start) Ev.countdownDone)
        (Ev.capture true (Except.ok "IMG"))).currentIndex + 1 :=
  (capture_session_invariant_amended _
      (Reachable.step (Ev.capture true (Except.ok "IMG"))
        (Reachable.step Ev.countdownDone
          (Reachable.step Ev.start
            (Reachable.step
              (Ev.init true true (Except.ok ⟨true, [⟨"smile", "Smile"⟩], "ok"⟩))
              Reachable.init))))).2.1 (Or.inl (by decide))

/-! ## C2: N successful captures end in `submitting` with N images -/

/-- Helper: from a `countdown` state at index `k` with the remaining
images matching the remaining challenges, the successful rounds append
one record per remaining challenge, in order, and end in `submitting`. -/
theorem runFlow_countdown_spec :
    ∀ (imgs : List String) (cs : List Challenge) (k : Nat)
      (done : List CapturedChallenge) (ed : String),
      imgs ≠ [] → k + imgs.length = cs.length →
      runFlow imgs ⟨.countdown, cs, k, done, ed⟩ =
        ⟨.submitting, cs, cs.length - 1,
          done ++ List.zipWith mkCaptured (cs.drop k) imgs, ed⟩ := by
  intro imgs
  induction imgs with
  | nil =>
      intro cs k done ed hne _
      exact absurd rfl hne
  | cons img rest ih =>
      intro cs k done ed _ hlen
      simp only [List.length_cons] at hlen
      have hk : k < cs.length := by omega
      have hrun : runFlow (img :: rest) (⟨.countdown, cs, k, done, ed⟩ : FlowState) =
          runFlow rest (captureCycle img ⟨.countdown, cs, k, done, ed⟩) := rfl
      have h1 : step (⟨.countdown, cs, k, done, ed⟩ : FlowState) Ev.countdownDone =
          ⟨.capturing, cs, k, done, ed⟩ := by
        simp [step]
      by_cases hrest : rest = []
      · subst hrest
        simp only [List.length_nil] at hlen
        have hklast : ¬ (k < cs.length - 1) := by omega
        have h2 : step (⟨.capturing, cs, k, done, ed⟩ : FlowState)
            (Ev.capture true (Except.ok img)) =
            ⟨.submitting, cs, k, done ++ [mkCaptured cs[k] img], ed⟩ := by
          simp [step, captureStep, List.getElem?_eq_getElem hk, hklast, mkCaptured]
        have hk1 : k + 1 = cs.length := by omega
        have hdrop : cs.drop k = [cs[k]] := by
          rw [List.drop_eq_getElem_cons hk, hk1, List.drop_length]
        have hidx : cs.length - 1 = k := by omega
        rw [hrun, captureCycle, h1, h2, hdrop, hidx]
        rfl
      · have hr1 : 0 < rest.length := List.length_pos.mpr hrest
        have hklt : k < cs.length - 1 := by omega
        have h2 : step (⟨.capturing, cs, k, done, ed⟩ : FlowState)
            (Ev.capture true (Except.ok img)) =
            ⟨.countdown, cs, k + 1, done ++ [mkCaptured cs[k] img], ed⟩ := by
          simp [step, captureStep, List.getElem?_eq_getElem hk, hklt, mkCaptured]
        rw [hrun, captureCycle, h1, h2,
          ih cs (k + 1) (done ++ [mkCaptured cs[k] img]) ed hrest (by omega),
          List.drop_eq_getElem_cons hk, List.zipWith_cons_cons, List.append_assoc]
        rfl

/-- C2: for every non-empty challenge list and matching images, after one
successful capture per challenge the flow is in `submitting` and the
captured list has exactly one record per challenge, in order. -/
theorem n_captures_reach_submitting :
    ∀ (cs : List Challenge) (imgs : List String) (m : String),
      cs ≠ [] → cs.length = imgs.length →
      runFlow imgs
          (step (step init0 (Ev.init true true (Except.ok ⟨true, cs, m⟩))) Ev.start) =
        { screen := .submitting, challenges := cs, currentIndex := cs.length - 1,
          captured := List.zipWith mkCaptured cs imgs, errorDetails := "" } ∧
      (List.zipWith mkCaptured cs imgs).length = cs.length := by
  intro cs imgs m hne hlen
  have hpos : 0 < cs.length := List.length_pos.mpr hne
  have h0 : step init0 (Ev.init true true (Except.ok ⟨true, cs, m⟩)) =
      ⟨.ready, cs, 0, [], ""⟩ := by
    simp [step, init0, initStep, hpos]
  have h1 : step (⟨.ready, cs, 0, [], ""⟩ : FlowState) Ev.start =
      ⟨.countdown, cs, 0, [], ""⟩ := by
    simp [step]
  have himgs : imgs ≠ [] := by
    intro h
    rw [h, List.length_nil] at hlen
    exact hne (List.length_eq_zero.mp hlen)
  rw [h0, h1, runFlow_countdown_spec imgs cs 0 [] "" himgs (by omega)]
  constructor
  · simp
  · rw [List.length_zipWith]
    omega

/-- C2 witness: one challenge, one successful capture, ending in
`submitting` with one captured record. -/
theorem n_captures_reach_submitting_witness :
    runFlow ["A"]
        (step (step init0
          (Ev.init true true (Except.ok ⟨true, [⟨"smile", "S"⟩], "m"⟩))) Ev.start) =
      { screen := .submitting, challenges := [⟨"smile", "S"⟩], currentIndex := 0,
        captured := List.zipWith mkCaptured [⟨"smile", "S"⟩] ["A"],
        errorDetails := "" } :=
  (n_captures_reach_submitting [⟨"smile", "S"⟩] ["A"] "m" (by simp) rfl).1

end AttendanceApp
